import Mathlib

/-!
Verification of `llm_agent_quality`: a shallow embedding of the
`AgentMetrics` dataclass from `src/llm_agent_quality/agent_metrics.py`
(its four mutating operations, its two derived properties and the four
module-level threshold constants), together with theorems settling the
specification claims about it. Python integers are unbounded, so they
are embedded as `Int`; `first_tool_turn : int | None` becomes
`Option Int`; the method receiver becomes an explicit state argument and
mutation becomes returning the updated record.
-/

/-- Embedding of the `AgentMetrics` dataclass. Field defaults mirror the
dataclass defaults (`0`, `False`, `None`, `[]`, `""`). -/
structure AgentMetrics where
  turns : Int := 0
  tool_calls : Int := 0
  nudge_fired : Bool := false
  input_tokens : Int := 0
  output_tokens : Int := 0
  tool_declarations_count : Int := 0
  first_tool_turn : Option Int := none
  tool_names : List String := []
  model : String := ""
  empty_response : Bool := false
  deriving Repr, DecidableEq

namespace AgentMetrics

/-- Construction as used by the callers in scope: all fields at their
defaults, except `model` which may be supplied (`AgentMetrics(model=...)`). -/
def init (model : String) : AgentMetrics :=
  { model := model }

/-- Embedding of `record_turn`: `self.input_tokens += input_tokens;
self.output_tokens += output_tokens`. -/
def record_turn (m : AgentMetrics) (input_tokens output_tokens : Int) : AgentMetrics :=
  { m with
    input_tokens := m.input_tokens + input_tokens
    output_tokens := m.output_tokens + output_tokens }

/-- Embedding of `record_tool_call`: `self.tool_calls += 1;
self.tool_names.append(tool_name); if self.first_tool_turn is None:
self.first_tool_turn = turn`. -/
def record_tool_call (m : AgentMetrics) (tool_name : String) (turn : Int) : AgentMetrics :=
  { m with
    tool_calls := m.tool_calls + 1
    tool_names := m.tool_names ++ [tool_name]
    first_tool_turn :=
      match m.first_tool_turn with
      | none => some turn
      | some t => some t }

/-- Embedding of `record_nudge`: `self.nudge_fired = True`. -/
def record_nudge (m : AgentMetrics) : AgentMetrics :=
  { m with nudge_fired := true }

/-- Embedding of `finalize`: `self.turns = turns;
self.empty_response = not has_response`. -/
def finalize (m : AgentMetrics) (turns : Int) (has_response : Bool) : AgentMetrics :=
  { m with
    turns := turns
    empty_response := !has_response }

/-- Embedding of the derived property `total_tokens`. -/
def total_tokens (m : AgentMetrics) : Int :=
  m.input_tokens + m.output_tokens

/-- Embedding of the derived property `unique_tools_used`
(`set(self.tool_names)`). -/
def unique_tools_used (m : AgentMetrics) : Finset String :=
  m.tool_names.toFinset

end AgentMetrics

/-- One call to one of the four mutating operations, with its arguments. -/
inductive Op where
  | recordTurn (input_tokens output_tokens : Int)
  | recordToolCall (tool_name : String) (turn : Int)
  | recordNudge
  | finalizeOp (turns : Int) (has_response : Bool)
  deriving Repr, DecidableEq

/-- Apply one operation to a record. -/
def applyOp (m : AgentMetrics) : Op → AgentMetrics
  | Op.recordTurn i o => m.record_turn i o
  | Op.recordToolCall name turn => m.record_tool_call name turn
  | Op.recordNudge => m.record_nudge
  | Op.finalizeOp t h => m.finalize t h

/-- Apply a whole sequence of operations, left to right. -/
def applyOps (m : AgentMetrics) (ops : List Op) : AgentMetrics :=
  ops.foldl applyOp m

/-- Module-level threshold constant `MAX_TOOLS_PER_REQUEST = 6`. -/
def MAX_TOOLS_PER_REQUEST : Int := 6

/-- Module-level threshold constant `MAX_TURNS_TO_FIRST_TOOL = 2`. -/
def MAX_TURNS_TO_FIRST_TOOL : Int := 2

/-- Module-level threshold constant `MAX_TOTAL_TURNS = 8`. -/
def MAX_TOTAL_TURNS : Int := 8

/-- Module-level threshold constant `NUDGE_RATE_THRESHOLD = 0.3` (Python
float literal 0.3, embedded as the rational 3/10). -/
def NUDGE_RATE_THRESHOLD : ℚ := 3 / 10

/-- Combined state invariant backing claims C1 and C9: the tool-call
counter tracks the length of the tool-name list, and `first_tool_turn`
is absent exactly when no tool call has been recorded. -/
def MetricsInv (m : AgentMetrics) : Prop :=
  m.tool_calls = (m.tool_names.length : Int) ∧
    (m.first_tool_turn = none ↔ m.tool_calls = 0)

lemma metricsInv_init (model : String) : MetricsInv (AgentMetrics.init model) := by
  constructor <;> simp [AgentMetrics.init, MetricsInv]

lemma metricsInv_step (m : AgentMetrics) (op : Op) (h : MetricsInv m) :
    MetricsInv (applyOp m op) := by
  obtain ⟨hlen, hiff⟩ := h
  cases op with
  | recordTurn i o =>
      exact ⟨hlen, hiff⟩
  | recordToolCall name turn =>
      refine ⟨?_, ?_⟩
      · simp [applyOp, AgentMetrics.record_tool_call, hlen]
      · have hpos : (0 : Int) ≤ (m.tool_names.length : Int) := Int.ofNat_nonneg _
        constructor
        · intro hnone
          cases hft : m.first_tool_turn with
          | none => simp [applyOp, AgentMetrics.record_tool_call, hft] at hnone
          | some t => simp [applyOp, AgentMetrics.record_tool_call, hft] at hnone
        · intro hzero
          simp only [applyOp, AgentMetrics.record_tool_call] at hzero
          omega
  | recordNudge =>
      exact ⟨hlen, hiff⟩
  | finalizeOp t hr =>
      exact ⟨hlen, hiff⟩

lemma metricsInv_applyOps (m : AgentMetrics) (ops : List Op) (h : MetricsInv m) :
    MetricsInv (applyOps m ops) := by
  induction ops generalizing m with
  | nil => exact h
  | cons op rest ih => exact ih (applyOp m op) (metricsInv_step m op h)

lemma metricsInv_reachable (model : String) (ops : List Op) :
    MetricsInv (applyOps (AgentMetrics.init model) ops) :=
  metricsInv_applyOps _ ops (metricsInv_init model)

/-- C1: for every record reachable from construction by any sequence of
the four operations, `tool_calls` equals the length of `tool_names`. -/
theorem tool_calls_eq_length (model : String) (ops : List Op) :
    (applyOps (AgentMetrics.init model) ops).tool_calls =
      ((applyOps (AgentMetrics.init model) ops).tool_names.length : Int) :=
  (metricsInv_reachable model ops).1

/-- C2: if `first_tool_turn` is absent, `record_tool_call` sets it to the
given turn; once present it is never changed, so two successive calls with
turns t1 then t2 (t2 arbitrary, possibly smaller) leave it at t1. -/
theorem first_tool_turn_first_write_wins (m : AgentMetrics)
    (name1 name2 : String) (t1 t2 : Int) (h : m.first_tool_turn = none) :
    (m.record_tool_call name1 t1).first_tool_turn = some t1 ∧
      ((m.record_tool_call name1 t1).record_tool_call name2 t2).first_tool_turn = some t1 ∧
      ∀ (m₂ : AgentMetrics) (name : String) (t₀ t : Int),
        m₂.first_tool_turn = some t₀ →
          (m₂.record_tool_call name t).first_tool_turn = some t₀ := by
  refine ⟨?_, ?_, ?_⟩
  · simp [AgentMetrics.record_tool_call, h]
  · simp [AgentMetrics.record_tool_call, h]
  · intro m₂ name t₀ t h₂
    simp [AgentMetrics.record_tool_call, h₂]

/-- Witness for C2 at a concrete fresh record: first call with turn 3,
second with turn 1, first write wins. -/
theorem first_tool_turn_first_write_wins_witness :
    ((AgentMetrics.init "").record_tool_call "write_file" 3).first_tool_turn = some 3 ∧
      (((AgentMetrics.init "").record_tool_call "write_file" 3).record_tool_call
        "read_file" 1).first_tool_turn = some 3 ∧
      ∀ (m₂ : AgentMetrics) (name : String) (t₀ t : Int),
        m₂.first_tool_turn = some t₀ →
          (m₂.record_tool_call name t).first_tool_turn = some t₀ :=
  first_tool_turn_first_write_wins (AgentMetrics.init "") "write_file" "read_file" 3 1 rfl

/-- C3: `finalize` overwrites `turns` with exactly the given value and sets
`empty_response` to the negation of `has_response`; a second call simply
overwrites both again. -/
theorem finalize_sets_turns_and_empty_response (m : AgentMetrics)
    (t₁ t₂ : Int) (b₁ b₂ : Bool) :
    (m.finalize t₁ b₁).turns = t₁ ∧
      (m.finalize t₁ b₁).empty_response = !b₁ ∧
      ((m.finalize t₁ b₁).finalize t₂ b₂).turns = t₂ ∧
      ((m.finalize t₁ b₁).finalize t₂ b₂).empty_response = !b₂ := by
  refine ⟨rfl, rfl, rfl, rfl⟩

/-- C4: `finalize` changes only `turns` and `empty_response`; every other
field is unchanged. -/
theorem finalize_frame (m : AgentMetrics) (t : Int) (b : Bool) :
    (m.finalize t b).tool_calls = m.tool_calls ∧
      (m.finalize t b).nudge_fired = m.nudge_fired ∧
      (m.finalize t b).input_tokens = m.input_tokens ∧
      (m.finalize t b).output_tokens = m.output_tokens ∧
      (m.finalize t b).tool_declarations_count = m.tool_declarations_count ∧
      (m.finalize t b).first_tool_turn = m.first_tool_turn ∧
      (m.finalize t b).tool_names = m.tool_names ∧
      (m.finalize t b).model = m.model := by
  refine ⟨rfl, rfl, rfl, rfl, rfl, rfl, rfl, rfl⟩

/-- C5: `record_turn` adds the given amounts to the two token counters and
changes nothing else; for a fresh record, `(100,50)` then `(200,80)` gives
totals 300, 130 and 430, and `total_tokens` is always the sum of the two
counters. -/
theorem record_turn_additive (m : AgentMetrics) (i o : Int) :
    (m.record_turn i o).input_tokens = m.input_tokens + i ∧
      (m.record_turn i o).output_tokens = m.output_tokens + o ∧
      (m.record_turn i o).turns = m.turns ∧
      (m.record_turn i o).tool_calls = m.tool_calls ∧
      (m.record_turn i o).nudge_fired = m.nudge_fired ∧
      (m.record_turn i o).tool_declarations_count = m.tool_declarations_count ∧
      (m.record_turn i o).first_tool_turn = m.first_tool_turn ∧
      (m.record_turn i o).tool_names = m.tool_names ∧
      (m.record_turn i o).model = m.model ∧
      (m.record_turn i o).empty_response = m.empty_response ∧
      (m.record_turn i o).total_tokens = (m.record_turn i o).input_tokens +
        (m.record_turn i o).output_tokens ∧
      (((AgentMetrics.init "").record_turn 100 50).record_turn 200 80).input_tokens = 300 ∧
      (((AgentMetrics.init "").record_turn 100 50).record_turn 200 80).output_tokens = 130 ∧
      (((AgentMetrics.init "").record_turn 100 50).record_turn 200 80).total_tokens = 430 := by
  refine ⟨rfl, rfl, rfl, rfl, rfl, rfl, rfl, rfl, rfl, rfl, rfl, by decide, by decide, by decide⟩

/-- C6: `record_tool_call` increments `tool_calls` by one and appends the
name at the end of `tool_names`; `unique_tools_used` is the set of distinct
names; the three-call example from the spec evaluates as stated. -/
theorem record_tool_call_appends (m : AgentMetrics) (name : String) (turn : Int) :
    (m.record_tool_call name turn).tool_calls = m.tool_calls + 1 ∧
      (m.record_tool_call name turn).tool_names = m.tool_names ++ [name] ∧
      (∀ m₂ : AgentMetrics, m₂.unique_tools_used = m₂.tool_names.toFinset) ∧
      ((((AgentMetrics.init "").record_tool_call "write_file" 1).record_tool_call
          "read_file" 1).record_tool_call "write_file" 2).tool_calls = 3 ∧
      ((((AgentMetrics.init "").record_tool_call "write_file" 1).record_tool_call
          "read_file" 1).record_tool_call "write_file" 2).tool_names =
        ["write_file", "read_file", "write_file"] ∧
      ((((AgentMetrics.init "").record_tool_call "write_file" 1).record_tool_call
          "read_file" 1).record_tool_call "write_file" 2).unique_tools_used =
        {"write_file", "read_file"} := by
  refine ⟨rfl, rfl, fun _ => rfl, by decide, by decide, by decide⟩

/-- C7: `record_nudge` is idempotent: any n ≥ 1 iterated calls produce the
same record as one call, and afterwards `nudge_fired` is true. -/
theorem record_nudge_idempotent (m : AgentMetrics) (n : ℕ) (h : 1 ≤ n) :
    AgentMetrics.record_nudge^[n] m = m.record_nudge ∧
      (AgentMetrics.record_nudge^[n] m).nudge_fired = true := by
  have hone : ∀ m₂ : AgentMetrics, (m₂.record_nudge).record_nudge = m₂.record_nudge := by
    intro m₂; rfl
  have key : AgentMetrics.record_nudge^[n] m = m.record_nudge := by
    induction n with
    | zero => omega
    | succ k ih =>
        rw [Function.iterate_succ_apply']
        rcases Nat.eq_zero_or_pos k with hk | hk
        · subst hk; rfl
        · rw [ih hk, hone]
  exact ⟨key, by rw [key]; rfl⟩

/-- Witness for C7: three iterated nudges on a fresh record equal one
nudge, and the flag is set. -/
theorem record_nudge_idempotent_witness :
    AgentMetrics.record_nudge^[3] (AgentMetrics.init "") =
        (AgentMetrics.init "").record_nudge ∧
      (AgentMetrics.record_nudge^[3] (AgentMetrics.init "")).nudge_fired = true :=
  record_nudge_idempotent (AgentMetrics.init "") 3 (by decide)

/-- C8: the four threshold constants have exactly the documented values and
satisfy the documented sanity ranges. -/
theorem threshold_constants_values :
    MAX_TOOLS_PER_REQUEST = 6 ∧
      MAX_TURNS_TO_FIRST_TOOL = 2 ∧
      MAX_TOTAL_TURNS = 8 ∧
      NUDGE_RATE_THRESHOLD = 3 / 10 ∧
      (1 ≤ MAX_TOOLS_PER_REQUEST ∧ MAX_TOOLS_PER_REQUEST ≤ 10) ∧
      (1 ≤ MAX_TURNS_TO_FIRST_TOOL ∧ MAX_TURNS_TO_FIRST_TOOL ≤ 5) ∧
      (1 ≤ MAX_TOTAL_TURNS ∧ MAX_TOTAL_TURNS ≤ 15) ∧
      (0 < NUDGE_RATE_THRESHOLD ∧ NUDGE_RATE_THRESHOLD < 1) := by
  refine ⟨rfl, rfl, rfl, rfl, ⟨?_, ?_⟩, ⟨?_, ?_⟩, ⟨?_, ?_⟩, ⟨?_, ?_⟩⟩ <;>
    norm_num [MAX_TOOLS_PER_REQUEST, MAX_TURNS_TO_FIRST_TOOL, MAX_TOTAL_TURNS,
      NUDGE_RATE_THRESHOLD]

/-- C9: on every record reachable from default construction by any
sequence of the four operations, `first_tool_turn` is absent exactly when
`tool_calls` is zero. -/
theorem first_tool_turn_absent_iff_no_tool_calls (model : String) (ops : List Op) :
    (applyOps (AgentMetrics.init model) ops).first_tool_turn = none ↔
      (applyOps (AgentMetrics.init model) ops).tool_calls = 0 :=
  (metricsInv_reachable model ops).2

/-- C10: `nudge_fired` never reverts: once true, applying any of the four
operations with any arguments leaves it true. -/
theorem nudge_fired_monotone (m : AgentMetrics) (op : Op)
    (h : m.nudge_fired = true) : (applyOp m op).nudge_fired = true := by
  cases op with
  | recordTurn i o => exact h
  | recordToolCall name turn => exact h
  | recordNudge => rfl
  | finalizeOp t hr => exact h

/-- Witness for C10: a record with the nudge flag set keeps it set across
a concrete finalize call. -/
theorem nudge_fired_monotone_witness :
    ((AgentMetrics.init "").record_nudge).nudge_fired = true ∧
      (applyOp ((AgentMetrics.init "").record_nudge)
        (Op.finalizeOp 5 true)).nudge_fired = true :=
  ⟨rfl, nudge_fired_monotone ((AgentMetrics.init "").record_nudge)
    (Op.finalizeOp 5 true) rfl⟩
